import Mathlib

/-!
Verification of the serial-session engine of `temperature_ui.py`
(class `SerialWorker`), a worker that configures a Wio-E5 LoRa radio
module over an AT-command serial link, runs a receive/transmit loop, and
parses temperature and packet responses.

Python strings are embedded as `List Char`; the Python string primitives
used by the source (`strip`, `split`, the `in` substring test,
`bytes.fromhex`, `.decode('ascii')`, `float(...)`, `f'{ord(c):02X}'`) are
given executable Lean counterparts below.  Wall-clock times are modelled
as natural numbers of time units; `serial` I/O is modelled by explicit
inputs (the decoded line available at an iteration, and flags saying
which serial operation raises an exception).
-/

/-- Python strings, embedded as lists of characters. -/
abbrev PyStr := List Char

/-- Whitespace characters recognised by Python's `str.strip` / `str.split()`
(ASCII subset: space, tab, newline, carriage return, vertical tab, form feed). -/
def isPyWs (c : Char) : Bool :=
  c = ' ' || c = '\t' || c = '\n' || c = '\r' || c = Char.ofNat 11 || c = Char.ofNat 12

/-- Python `s.strip()`: remove leading and trailing whitespace. -/
def pyStrip (s : PyStr) : PyStr :=
  ((s.dropWhile isPyWs).reverse.dropWhile isPyWs).reverse

/-- Locate the first occurrence of `sep` in `s`: returns the text before the
occurrence and the text after it, or `none` when `sep` does not occur. -/
def findDrop (sep : PyStr) : PyStr → Option (PyStr × PyStr)
  | [] => if sep.isEmpty then some ([], []) else none
  | c :: rest =>
    if sep.isPrefixOf (c :: rest) then some ([], (c :: rest).drop sep.length)
    else (findDrop sep rest).map (fun p => (c :: p.1, p.2))

/-- Python's substring test `sep in s`. -/
def containsSub (sep s : PyStr) : Bool := (findDrop sep s).isSome

/-- Iterated splitting for `pySplit`; the fuel argument bounds the number of
separator occurrences and is always sufficient at `s.length + 1`. -/
def pySplitAux (sep : PyStr) : Nat → PyStr → List PyStr
  | 0, s => [s]
  | fuel + 1, s =>
    match findDrop sep s with
    | none => [s]
    | some (before, after) => before :: pySplitAux sep fuel after

/-- Python `s.split(sep)` for a non-empty separator: non-overlapping splits,
scanning left to right. -/
def pySplit (sep s : PyStr) : List PyStr :=
  if sep.isEmpty then [s] else pySplitAux sep (s.length + 1) s

/-- Tokenizer body for `pySplitWs`; fuel is always sufficient at
`s.length + 1` because every step consumes at least one character. -/
def pySplitWsAux : Nat → PyStr → List PyStr
  | 0, _ => []
  | _ + 1, [] => []
  | fuel + 1, c :: rest =>
    if isPyWs c then pySplitWsAux fuel rest
    else (c :: rest.takeWhile (fun d => !(isPyWs d))) ::
      pySplitWsAux fuel (rest.dropWhile (fun d => !(isPyWs d)))

/-- Python `s.split()` with no arguments: split on runs of whitespace,
discarding empty tokens. -/
def pySplitWs (s : PyStr) : List PyStr := pySplitWsAux (s.length + 1) s

/-- Uppercase hexadecimal digit for a value below 16. -/
def hexDigit (n : Nat) : Char := "0123456789ABCDEF".toList.getD n '0'

/-- Big-endian uppercase hexadecimal digits of `n`; the fuel argument bounds
the recursion depth and is always sufficient at `n + 1`. -/
def natToHexAux : Nat → Nat → PyStr
  | 0, _ => []
  | fuel + 1, n =>
    if n < 16 then [hexDigit n]
    else natToHexAux fuel (n / 16) ++ [hexDigit (n % 16)]

/-- Python `f'{n:X}'`: uppercase hexadecimal representation of `n`. -/
def pyHexUpper (n : Nat) : PyStr := natToHexAux (n + 1) n

/-- Python `f'{n:02X}'`: uppercase hexadecimal, zero-padded to width two. -/
def hex02 (n : Nat) : PyStr :=
  let h := pyHexUpper n
  if h.length < 2 then '0' :: h else h

/-- Value of one hexadecimal digit character (either case), `none` for a
non-hex character. -/
def hexVal (c : Char) : Option Nat :=
  if '0' ≤ c && c ≤ '9' then some (c.toNat - 48)
  else if 'a' ≤ c && c ≤ 'f' then some (c.toNat - 87)
  else if 'A' ≤ c && c ≤ 'F' then some (c.toNat - 55)
  else none

/-- Python `bytes.fromhex`: pairs of hexadecimal digits become byte values;
ASCII whitespace may separate pairs (but not split a pair); an odd number of
digits or a non-hex character fails. -/
def fromhexL : PyStr → Option (List Nat)
  | [] => some []
  | [c] => if isPyWs c then some [] else none
  | c :: d :: rest =>
    if isPyWs c then fromhexL (d :: rest)
    else
      match hexVal c, hexVal d with
      | some hi, some lo => (fromhexL rest).map (fun bs => (hi * 16 + lo) :: bs)
      | _, _ => none

/-- Python `bytes.fromhex(s).decode('ascii')`: hex-decode to bytes, then
require every byte below 128 and map bytes back to characters. -/
def decodeAsciiHex (s : PyStr) : Option PyStr :=
  (fromhexL s).bind fun bs =>
    if bs.all (fun b => b < 128) then some (bs.map Char.ofNat) else none

/-- The character set of the source's already-hex test:
`'0123456789ABCDEFabcdef'`. -/
def hexChars : PyStr := "0123456789ABCDEFabcdef".toList

/-- Source line 222: `all(c in '0123456789ABCDEFabcdef' for c in msg)`. -/
def isAllHexPy (s : PyStr) : Bool := s.all (fun c => hexChars.contains c)

/-- ASCII decimal digit test. -/
def isAsciiDigit (c : Char) : Bool := '0' ≤ c && c ≤ '9'

/-- Numeric value of a string of decimal digits. -/
def natOfDigits (ds : PyStr) : Nat := ds.foldl (fun n c => 10 * n + (c.toNat - 48)) 0

/-- Optional leading sign of a Python float literal. -/
def parseSign : PyStr → Int × PyStr
  | '+' :: rest => (1, rest)
  | '-' :: rest => (-1, rest)
  | s => (1, s)

/-- Split a float literal at the first exponent marker `e`/`E`. -/
def splitExp : PyStr → PyStr × Option PyStr
  | [] => ([], none)
  | c :: rest =>
    if c = 'e' || c = 'E' then ([], some rest)
    else
      let p := splitExp rest
      (c :: p.1, p.2)

/-- Syntactic pieces of a parsed decimal float literal: sign, the digits
before and after the point (as values), the number of fraction digits, and
the exponent. -/
structure FloatParts where
  sign : Int
  intPart : Nat
  fracPart : Nat
  fracLen : Nat
  exp : Int
deriving DecidableEq

/-- Unsigned decimal mantissa `digits[.digits]` or `.digits` (at least one
digit in total): integer-part value, fraction-part value, fraction length. -/
def parseUnsigned (s : PyStr) : Option (Nat × Nat × Nat) :=
  let ip := s.takeWhile isAsciiDigit
  let rest := s.dropWhile isAsciiDigit
  match rest with
  | [] => if ip.isEmpty then none else some (natOfDigits ip, 0, 0)
  | '.' :: frac =>
    let fp := frac.takeWhile isAsciiDigit
    let rest2 := frac.dropWhile isAsciiDigit
    if !rest2.isEmpty then none
    else if ip.isEmpty && fp.isEmpty then none
    else some (natOfDigits ip, natOfDigits fp, fp.length)
  | _ => none

/-- Signed integer exponent part of a float literal. -/
def parseExpPart (s : PyStr) : Option Int :=
  let p := parseSign s
  if p.2.isEmpty || !(p.2.all isAsciiDigit) then none
  else some (p.1 * (natOfDigits p.2 : Int))

/-- Syntactic parse of a Python float literal: optional surrounding
whitespace, optional sign, decimal mantissa, optional decimal exponent. -/
def pyFloatParse (s0 : PyStr) : Option FloatParts :=
  let s := pyStrip s0
  let p := parseSign s
  let m := splitExp p.2
  match parseUnsigned m.1, m.2 with
  | some u, none => some ⟨p.1, u.1, u.2.1, u.2.2, 0⟩
  | some u, some es => (parseExpPart es).map (fun ex => ⟨p.1, u.1, u.2.1, u.2.2, ex⟩)
  | none, _ => none

/-- Numeric value of a parsed float literal, as an exact rational. -/
def partsVal (p : FloatParts) : ℚ :=
  (p.sign : ℚ) * ((p.intPart : ℚ) + (p.fracPart : ℚ) / (10 : ℚ) ^ p.fracLen) *
    (10 : ℚ) ^ p.exp

/-- Python `float(s)` on decimal literals, evaluated exactly over ℚ.  The
special forms `inf`/`nan` and digit-group underscores accepted by Python are
outside the fragment this program exchanges with the radio module and are
not modelled; the numeric value is exact rather than rounded to binary
floating point. -/
def pyFloat (s : PyStr) : Option ℚ := (pyFloatParse s).map partsVal

example : pyFloatParse "23.50".toList = some ⟨1, 23, 50, 2, 0⟩ := by decide
example : pyFloatParse " -2e1 ".toList = some ⟨-1, 2, 0, 0, 1⟩ := by decide
example : pyFloat "abc".toList = none := by decide
example : pyFloat "23.50".toList = some (47 / 2 : ℚ) := by
  have h : pyFloat "23.50".toList = some (partsVal ⟨1, 23, 50, 2, 0⟩) := rfl
  rw [h]
  norm_num [partsVal]
example : containsSub "TEMP,".toList "+TEST: TEMP,23.50".toList = true := by decide
example : pySplit "TEMP,".toList "+TEST: TEMP,23.50".toList =
    ["+TEST: ".toList, "23.50".toList] := by decide
example : pySplitWs "+TEST: TEMP 23.50".toList =
    ["+TEST:".toList, "TEMP".toList, "23.50".toList] := by decide
example : fromhexL "48656C6C6F".toList = some [72, 101, 108, 108, 111] := by decide
example : decodeAsciiHex "48656C6C6F".toList = some "Hello".toList := by decide
example : decodeAsciiHex "414".toList = none := by decide
example : hex02 72 = "48".toList := by decide

/-- Scan of source lines 156-160: the token after the first `"TEMP"` token
that has a successor; `none` when no such token exists. -/
def findTempToken : List PyStr → Option PyStr
  | [] => none
  | t :: rest => if t = "TEMP".toList then rest.head? else findTempToken rest

/-- The value assigned by one attempt of `SerialWorker.read_temperature`'s
per-line extraction block (source lines 146-161), `none` when the block
assigns nothing or raises `IndexError`/`ValueError`: inside the guard
`"TEMP" in line`, format (a) applies when `"TEMP," in line` and parses the
stripped text of `line.split("TEMP,")[1]`; otherwise format (b) applies when
`":" in line and "TEMP" in line` and parses the whitespace token that
immediately follows the first token equal to `"TEMP"`. -/
def tryExtract (line : PyStr) : Option ℚ :=
  if containsSub "TEMP".toList line then
    if containsSub "TEMP,".toList line then
      match (pySplit "TEMP,".toList line)[1]? with
      | some part => pyFloat (pyStrip part)
      | none => none
    else if containsSub ":".toList line && containsSub "TEMP".toList line then
      match findTempToken (pySplitWs line) with
      | some tok => pyFloat tok
      | none => none
    else none
  else none

/-- One per-line update of `temperature_value`: the parsed value when the
extraction block assigns one, the previous value otherwise (the `except
(IndexError, ValueError)` handler at source line 163 keeps the old value
when parsing raises). -/
def extractTemp (v : Option ℚ) (line : PyStr) : Option ℚ :=
  match tryExtract line with
  | some t => some t
  | none => v

/-- The three Qt signals of `SerialWorker`, as an event tagged union:
`status_update(device, message)`, `message_received(device, message)`,
`connection_status(device, status)`.  Where the source interpolates a
non-string value into a status text (timestamps, parsed numbers,
exception text already carried separately), the fixed leading text of the
message is kept and the interpolated tail elided; every status text used
by a claim is a fixed string or a fixed prefix followed by a payload
string, and those are kept exactly. -/
inductive Event where
  | status_update (device : PyStr) (text : PyStr)
  | message_received (device : PyStr) (text : PyStr)
  | connection_status (device : PyStr) (connected : Bool)
deriving DecidableEq

/-- State of one `SerialWorker` (its `__init__` fields): the serial handle
is `none` before `connect`, `some true` while open, `some false` after
`close`; `message_to_send` is `None` or the pending text;
`last_send_time` is in whole time units. -/
structure WorkerState where
  port : PyStr
  device_type : PyStr
  running : Bool
  serial : Option Bool
  message_to_send : Option PyStr
  last_send_time : Nat
deriving DecidableEq

/-- `send_interval = 5` seconds (source line 50). -/
def send_interval : Nat := 5

/-- A `SerialWorker` fresh from `__init__(port, device_type)`. -/
def initWorker (port device_type : PyStr) : WorkerState :=
  { port := port, device_type := device_type, running := false, serial := none,
    message_to_send := none, last_send_time := 0 }

/-- `SerialWorker.send_message`: overwrite the pending outbound message and
emit the queued status. -/
def send_message (st : WorkerState) (message : PyStr) : WorkerState × List Event :=
  ({st with message_to_send := some message},
   [.status_update st.device_type ("Queued message for sending: ".toList ++ message)])

/-- `SerialWorker.disconnect`: close the port and emit the two events, but
only when a handle exists and is open. -/
def disconnect (st : WorkerState) : WorkerState × List Event :=
  if st.serial = some true then
    ({st with serial := some false},
     [.status_update st.device_type "Disconnected".toList,
      .connection_status st.device_type false])
  else (st, [])

/-- `SerialWorker.stop`: clear the running flag (the `self.wait()` join is
modelled by the loop refusing further iterations once `running` is false). -/
def stop (st : WorkerState) : WorkerState := {st with running := false}

/-- Python truthiness of `self.message_to_send`: `None` and the empty
string are falsy. -/
def pyTruthy : Option PyStr → Bool
  | none => false
  | some s => !s.isEmpty

/-- Transmit-packet payload encoding (source lines 221-225): a payload made
only of hexadecimal-digit characters is sent as-is, any other payload is
replaced by the concatenation of `f'{ord(c):02X}'` over its characters. -/
def encodeMessage (msg : PyStr) : PyStr :=
  if isAllHexPy msg then msg else msg.flatMap (fun c => hex02 c.toNat)

/-- The wire command `AT+TEST=TXLRPKT,"<hex>"\r\n` for a payload. -/
def tx_command (msg : PyStr) : PyStr :=
  "AT+TEST=TXLRPKT,\"".toList ++ encodeMessage msg ++ "\"\r\n".toList

/-- Receiver-side packet handling (source lines 210-215): payload between
the first pair of quotes, hex-decoded to ASCII; on any failure
(`IndexError` from the quote split, `ValueError` from `fromhex`,
`UnicodeDecodeError` from the ASCII decode) the failure status is emitted
instead of a message event. -/
def handle_receiver_packet (dt line : PyStr) : List Event :=
  match (pySplit ['"'] line)[1]? with
  | none => [.status_update dt "Failed to decode message".toList]
  | some hex_data =>
    match decodeAsciiHex hex_data with
    | some ascii_text => [.message_received dt ("Received message: ".toList ++ ascii_text)]
    | none => [.status_update dt "Failed to decode message".toList]

/-- Receive half of one loop iteration (source lines 203-215): a non-empty
stripped line is surfaced as a `Received:` status, and a Receiver
additionally runs packet handling on lines containing `+TEST: RX`. -/
def receiveEvents (dt raw : PyStr) : List Event :=
  let response := pyStrip raw
  if response.isEmpty then []
  else
    .status_update dt ("Received: ".toList ++ response) ::
      (if dt = "Receiver".toList && containsSub "+TEST: RX".toList response then
        handle_receiver_packet dt response
      else [])

/-- Environment of one iteration of the main loop: the current time, the
line available on the port (`none` when `in_waiting` is false), whether the
serial read raises, whether the transmit write raises, and the exception
text `str(e)` of a raised exception. -/
structure IterInput where
  now : Nat
  line : Option PyStr
  recv_fail : Bool
  send_fail : Bool
  err_text : PyStr
deriving DecidableEq

/-- Observable outcome of one loop iteration: successor state, emitted
events, bytes written to the port, and sleep durations in time units. -/
structure IterOut where
  state : WorkerState
  events : List Event
  writes : List PyStr
  sleeps : List ℚ
deriving DecidableEq

/-- Transmit half of one loop iteration (source lines 218-230): only a
Transmitter with a truthy pending message and at least `send_interval`
elapsed since `last_send_time` writes the encoded packet, emits the sent
event and updates `last_send_time`; the pending message is left in place.
A raising write is caught by the loop's handler: the error status and the
one-unit pause replace the rest of the iteration. -/
def transmitStep (st : WorkerState) (inp : IterInput) : IterOut :=
  if st.device_type = "Transmitter".toList &&
      pyTruthy st.message_to_send &&
      decide (inp.now - st.last_send_time ≥ send_interval) then
    if inp.send_fail then
      ⟨st, [.status_update st.device_type ("Error: ".toList ++ inp.err_text)], [], [1]⟩
    else
      ⟨{st with last_send_time := inp.now},
       [.message_received st.device_type
          ("Sent message: ".toList ++ st.message_to_send.getD [])],
       [tx_command (st.message_to_send.getD [])], [(1 : ℚ) / 10]⟩
  else ⟨st, [], [], [(1 : ℚ) / 10]⟩

/-- One iteration of the `while self.running` body (source lines 200-237):
receive handling, transmit handling, the 0.1-unit sleep; an I/O exception
anywhere in the body is caught at line 235, emits the `Error:` status, and
pauses one unit before the next iteration. -/
def loopIter (st : WorkerState) (inp : IterInput) : IterOut :=
  if inp.recv_fail then
    ⟨st, [.status_update st.device_type ("Error: ".toList ++ inp.err_text)], [], [1]⟩
  else
    let recvEvs :=
      match inp.line with
      | some raw => receiveEvents st.device_type raw
      | none => []
    let t := transmitStep st inp
    ⟨t.state, recvEvs ++ t.events, t.writes, t.sleeps⟩

/-- One scheduling step of the loop: whether `stop()` was called before this
iteration's `while self.running` check, plus the iteration's environment. -/
structure LoopStep where
  stop_signal : Bool
  input : IterInput
deriving DecidableEq

/-- The active loop over a finite schedule of steps: each step first applies
a pending `stop()` (clearing `running`), then runs one body iteration if
`running` still holds; once `running` is false no further step executes. -/
def runLoop (st : WorkerState) : List LoopStep → WorkerState × List Event × List PyStr
  | [] => (st, [], [])
  | step :: rest =>
    if step.stop_signal then ({st with running := false}, [], [])
    else if st.running then
      let o := loopIter st step.input
      let r := runLoop o.state rest
      (r.1, o.events ++ r.2.1, o.writes ++ r.2.2)
    else (st, [], [])

example :
    (runLoop
      { port := "p".toList, device_type := "Transmitter".toList, running := true,
        serial := some true, message_to_send := some "Hi".toList, last_send_time := 0 }
      [⟨false, ⟨6, none, false, false, []⟩⟩]).2.2 =
      [tx_command "Hi".toList] := by decide

/-- Whether the per-line extraction block raises (`IndexError` or
`ValueError`), which selects the `Parse error` status over the
`Parsed temperature` status (source lines 162-164). -/
def extractRaises (line : PyStr) : Bool :=
  if containsSub "TEMP".toList line then
    if containsSub "TEMP,".toList line then
      match (pySplit "TEMP,".toList line)[1]? with
      | some part => (pyFloat (pyStrip part)).isNone
      | none => true
    else if containsSub ":".toList line && containsSub "TEMP".toList line then
      match findTempToken (pySplitWs line) with
      | some tok => (pyFloat tok).isNone
      | none => false
    else false
  else false

/-- Status events of the `"TEMP" in line` block of `read_temperature`
(source lines 146-164): the found-data status, then either the parsed
status or the parse-error status. -/
def tempLineEvents (dt line : PyStr) : List Event :=
  if containsSub "TEMP".toList line then
    .status_update dt ("Found temperature data: '".toList ++ line ++ ['\'']) ::
      (if extractRaises line then [.status_update dt "Parse error".toList]
       else [.status_update dt "Parsed temperature".toList])
  else []

/-- A line that marks the response complete: exactly `OK`, or containing
`ERROR` (source line 142). -/
def completingLine (line : PyStr) : Bool :=
  line = "OK".toList || containsSub "ERROR".toList line

/-- The polling loop of `read_temperature` (source lines 129-167) over the
finite list of raw lines that arrive inside the 5-unit window, threading
the completion flag and the current value: empty stripped lines are
skipped, each surviving line emits its response status, may mark
completion, and may update the value; once complete, remaining lines are
not read. -/
def rtGo (dt : PyStr) : List PyStr → Bool → Option ℚ → Bool × Option ℚ × List Event
  | [], c, v => (c, v, [])
  | raw :: rest, c, v =>
    if c then (c, v, [])
    else
      let line := pyStrip raw
      if line.isEmpty then rtGo dt rest c v
      else
        let c2 := completingLine line
        let v2 := extractTemp v line
        let r := rtGo dt rest c2 v2
        (r.1, r.2.1,
          .status_update dt ("Response line: '".toList ++ line ++ ['\'']) ::
            (tempLineEvents dt line ++ r.2.2))

/-- `SerialWorker.read_temperature` (source lines 102-185), with the lines
arriving during the 5-unit window supplied explicitly: a missing or closed
handle yields the not-connected error and no write; otherwise the query is
written, the lines are processed, and the result is the final
`temperature_value` together with the closing diagnostics. -/
def read_temperature (st : WorkerState) (lines : List PyStr) :
    Option ℚ × List Event × List PyStr :=
  if st.serial = some true then
    let r := rtGo st.device_type lines false none
    (r.2.1,
     .status_update st.device_type "Sending temperature read command...".toList ::
       (r.2.2 ++
        (.status_update st.device_type "Complete response".toList ::
          (match r.2.1 with
           | some _ => [.status_update st.device_type "Final temperature".toList]
           | none =>
             if r.1 then
               [.status_update st.device_type
                  "Temperature data not found in response".toList]
             else
               [.status_update st.device_type
                  "Timeout waiting for complete response".toList]))),
     ["AT+TEST=TEMP\r\n".toList])
  else
    (none, [.status_update st.device_type "Error: Device not connected".toList], [])

/-- Stripped non-empty lines actually consumed by the `read_temperature`
loop: everything up to and including the first completing line. -/
def rtConsumedLines : List PyStr → List PyStr
  | [] => []
  | raw :: rest =>
    let line := pyStrip raw
    if line.isEmpty then rtConsumedLines rest
    else if completingLine line then [line]
    else line :: rtConsumedLines rest

/-- Specification-side restatement of the claimed return value, following
the claim's words: the last successfully parsed numeric value over the
consumed lines, absent when no line parsed. -/
def lastParsedValue (lines : List PyStr) : Option ℚ :=
  (rtConsumedLines lines).foldl
    (fun acc l => match tryExtract l with | some t => some t | none => acc) none

/-- Specification-side restatement of response completion: some consumed
line is a completing line. -/
def responseCompleted : List PyStr → Bool
  | [] => false
  | raw :: rest =>
    let line := pyStrip raw
    if line.isEmpty then responseCompleted rest
    else if completingLine line then true
    else responseCompleted rest

/-- I/O behaviour of the three configuration writes of `configure_device`
(source lines 53-76): which write raises, and the exception text. -/
structure ConfigEnv where
  mode_fail : Bool
  rfcfg_fail : Bool
  rxlrpkt_fail : Bool
  err_text : PyStr
deriving DecidableEq

/-- The fixed LoRa parameters (source lines 20-28). -/
structure LoraParams where
  frequency : PyStr
  spreading_factor : PyStr
  bandwidth : PyStr
  coding_rate : PyStr
  power : PyStr
  preamble : PyStr
  crc : PyStr

/-- `LORA_PARAMS` of the source. -/
def LORA_PARAMS : LoraParams :=
  ⟨"868".toList, "SF7".toList, "125".toList, "12".toList, "15".toList,
   "8".toList, "ON".toList⟩

/-- The RF-configuration command of source line 62, interpolating the seven
parameters in order. -/
def rf_config_cmd : PyStr :=
  "AT+TEST=RFCFG,".toList ++ LORA_PARAMS.frequency ++ [','] ++
    LORA_PARAMS.spreading_factor ++ [','] ++ LORA_PARAMS.bandwidth ++ [','] ++
    LORA_PARAMS.coding_rate ++ [','] ++ LORA_PARAMS.power ++ [','] ++
    LORA_PARAMS.preamble ++ [','] ++ LORA_PARAMS.crc ++ "\r\n".toList

/-- `SerialWorker.configure_device` (source lines 53-76): mode-set, then RF
configuration, then receive-enable for a Receiver; the first raising write
aborts with the configuration-error status and `False`, later steps
unexecuted.  Returns (result, events, successful writes). -/
def configure_device (dt : PyStr) (env : ConfigEnv) : Bool × List Event × List PyStr :=
  let cfgErr := Event.status_update dt ("Configuration error: ".toList ++ env.err_text)
  if env.mode_fail then (false, [cfgErr], [])
  else
    let w1 := "AT+MODE=TEST\r\n".toList
    let e1 := Event.status_update dt "Set TEST mode".toList
    if env.rfcfg_fail then (false, [e1, cfgErr], [w1])
    else
      let e2 := Event.status_update dt "Configured LoRa parameters".toList
      if dt = "Receiver".toList then
        if env.rxlrpkt_fail then (false, [e1, e2, cfgErr], [w1, rf_config_cmd])
        else
          (true,
           [e1, e2, .status_update dt "Started listening for packets".toList],
           [w1, rf_config_cmd, "AT+TEST=RXLRPKT\r\n".toList])
      else (true, [e1, e2], [w1, rf_config_cmd])

/-- Observable outcome of one whole `SerialWorker.run` invocation. -/
structure SessionResult where
  state : WorkerState
  events : List Event
  writes : List PyStr
  entered_loop : Bool
deriving DecidableEq

/-- `SerialWorker.run` (source lines 187-240): set `running`, connect (a
failure emits the error and the disconnected status and returns),
configure (a failure disconnects and returns), then the active loop
followed by the clean-up `disconnect`.  `entered_loop` records whether the
`while self.running` loop was reached.  The interpolated tail of the
connection status texts is elided as in `Event`. -/
def run (port dt : PyStr) (connect_ok : Bool) (cfg : ConfigEnv)
    (steps : List LoopStep) : SessionResult :=
  let st := {initWorker port dt with running := true}
  if !connect_ok then
    ⟨{st with running := false},
     [.status_update dt "Connection error".toList, .connection_status dt false],
     [], false⟩
  else
    let st1 := {st with serial := some true}
    let connEvs := [Event.status_update dt ("Connected to ".toList ++ port),
                    Event.connection_status dt true]
    let c := configure_device dt cfg
    if !c.1 then
      let d := disconnect st1
      ⟨{d.1 with running := false}, connEvs ++ c.2.1 ++ d.2, c.2.2, false⟩
    else
      let l := runLoop st1 steps
      let d := disconnect l.1
      ⟨d.1, connEvs ++ c.2.1 ++ l.2.1 ++ d.2, c.2.2 ++ l.2.2, true⟩

theorem transmitStep_device_type (st : WorkerState) (inp : IterInput) :
    (transmitStep st inp).state.device_type = st.device_type := by
  unfold transmitStep
  split
  · split <;> rfl
  · rfl

theorem transmitStep_message (st : WorkerState) (inp : IterInput) :
    (transmitStep st inp).state.message_to_send = st.message_to_send := by
  unfold transmitStep
  split
  · split <;> rfl
  · rfl

theorem transmitStep_running (st : WorkerState) (inp : IterInput) :
    (transmitStep st inp).state.running = st.running := by
  unfold transmitStep
  split
  · split <;> rfl
  · rfl

theorem transmitStep_serial (st : WorkerState) (inp : IterInput) :
    (transmitStep st inp).state.serial = st.serial := by
  unfold transmitStep
  split
  · split <;> rfl
  · rfl

theorem loopIter_device_type (st : WorkerState) (inp : IterInput) :
    (loopIter st inp).state.device_type = st.device_type := by
  unfold loopIter
  split
  · rfl
  · exact transmitStep_device_type st inp

theorem loopIter_message (st : WorkerState) (inp : IterInput) :
    (loopIter st inp).state.message_to_send = st.message_to_send := by
  unfold loopIter
  split
  · rfl
  · exact transmitStep_message st inp

theorem loopIter_running (st : WorkerState) (inp : IterInput) :
    (loopIter st inp).state.running = st.running := by
  unfold loopIter
  split
  · rfl
  · exact transmitStep_running st inp

theorem loopIter_serial (st : WorkerState) (inp : IterInput) :
    (loopIter st inp).state.serial = st.serial := by
  unfold loopIter
  split
  · rfl
  · exact transmitStep_serial st inp

theorem receiveEvents_no_message_of_ne (dt raw : PyStr) (h : dt ≠ "Receiver".toList) :
    ∀ d t, Event.message_received d t ∉ receiveEvents dt raw := by
  intro d t
  simp only [receiveEvents]
  split
  · simp
  · simp
    intro hdt hcs
    exact absurd hdt (by simpa using h)

theorem transmitStep_empty (st : WorkerState) (inp : IterInput)
    (hm : st.message_to_send = some []) :
    transmitStep st inp = ⟨st, [], [], [(1 : ℚ) / 10]⟩ := by
  have hT : pyTruthy st.message_to_send = false := by rw [hm]; rfl
  unfold transmitStep
  simp [hT]

/-- C10 inner step: with an empty pending message a Transmitter iteration
writes nothing and emits no message event. -/
theorem c10_loopIter_aux (st : WorkerState) (inp : IterInput)
    (hdt : st.device_type = "Transmitter".toList)
    (hm : st.message_to_send = some []) :
    (loopIter st inp).writes = [] ∧
    ∀ d t, Event.message_received d t ∉ (loopIter st inp).events := by
  unfold loopIter
  split
  · simp
  · rw [transmitStep_empty st inp hm]
    constructor
    · rfl
    · intro d t
      simp only [List.append_nil, List.mem_append]
      cases hl : inp.line with
      | none => simp
      | some raw =>
        simp only
        have := receiveEvents_no_message_of_ne st.device_type raw (by rw [hdt]; decide) d t
        simpa using this

theorem c10_runLoop_aux : ∀ (steps : List LoopStep) (st : WorkerState),
    st.device_type = "Transmitter".toList → st.message_to_send = some [] →
    (runLoop st steps).2.2 = [] ∧
    ∀ d t, Event.message_received d t ∉ (runLoop st steps).2.1 := by
  intro steps
  induction steps with
  | nil =>
    intro st _ _
    exact ⟨rfl, by intro d t; simp [runLoop]⟩
  | cons step rest ih =>
    intro st hdt hm
    rw [runLoop]
    split
    · exact ⟨rfl, by intro d t; simp⟩
    · split
      · have hiter := c10_loopIter_aux st step.input hdt hm
        have hrec := ih (loopIter st step.input).state
          (by rw [loopIter_device_type]; exact hdt)
          (by rw [loopIter_message]; exact hm)
        refine ⟨?_, ?_⟩
        · simp only
          rw [hiter.1, hrec.1]
          rfl
        · intro d t
          simp only [List.mem_append, not_or]
          exact ⟨hiter.2 d t, hrec.2 d t⟩
      · exact ⟨rfl, by intro d t; simp⟩

/-- C10: a pending empty-string outbound message is never transmitted by a
Transmitter session: the transmit gate tests Python truthiness of the
pending message, so the branch never fires, no `AT+TEST=TXLRPKT` write
happens, and no message event is emitted over the whole remaining run —
even though the all-hex test vacuously classifies the empty string as
already hexadecimal. -/
theorem c10_empty_message (st : WorkerState) (steps : List LoopStep)
    (hdt : st.device_type = "Transmitter".toList)
    (hm : st.message_to_send = some []) :
    isAllHexPy [] = true ∧
    (runLoop st steps).2.2 = [] ∧
    ∀ d t, Event.message_received d t ∉ (runLoop st steps).2.1 :=
  ⟨rfl, c10_runLoop_aux steps st hdt hm⟩

/-- C10 witness: a concrete Transmitter session with an empty pending
message, over two loop iterations with elapsed send intervals, writes
nothing and emits no message event. -/
theorem c10_witness :
    isAllHexPy [] = true ∧
    (runLoop
      { port := "p".toList, device_type := "Transmitter".toList, running := true,
        serial := some true, message_to_send := some [], last_send_time := 0 }
      [⟨false, ⟨6, none, false, false, []⟩⟩, ⟨false, ⟨12, none, false, false, []⟩⟩]).2.2 = [] ∧
    ∀ d t, Event.message_received d t ∉
      (runLoop
        { port := "p".toList, device_type := "Transmitter".toList, running := true,
          serial := some true, message_to_send := some [], last_send_time := 0 }
        [⟨false, ⟨6, none, false, false, []⟩⟩, ⟨false, ⟨12, none, false, false, []⟩⟩]).2.1 :=
  c10_empty_message _ _ (by decide) (by decide)

/-- C9: when the serial handle is absent or not open, `read_temperature`
emits the not-connected error status and returns the absence signal without
writing the temperature-query command or touching the connection. -/
theorem c9_not_connected (st : WorkerState) (lines : List PyStr)
    (h : st.serial ≠ some true) :
    read_temperature st lines =
      (none, [.status_update st.device_type "Error: Device not connected".toList], []) := by
  rw [read_temperature, if_neg h]

/-- C9 witness: a freshly constructed worker (no serial handle yet) returns
the absence signal and only the not-connected status. -/
theorem c9_witness :
    read_temperature (initWorker "/dev/cu.usbserial-10".toList "Transmitter".toList)
        ["+TEST: TEMP,23.50".toList] =
      (none, [.status_update "Transmitter".toList "Error: Device not connected".toList], []) :=
  c9_not_connected _ _ (by decide)

theorem runLoop_running : ∀ (steps : List LoopStep) (st : WorkerState),
    (∀ s ∈ steps, s.stop_signal = false) →
    (runLoop st steps).1.running = st.running := by
  intro steps
  induction steps with
  | nil => intro st _; rfl
  | cons step rest ih =>
    intro st hns
    rw [runLoop, if_neg (by simp [hns step (List.mem_cons_self step rest)])]
    split
    · have := ih (loopIter st step.input).state
        (fun s hs => hns s (List.mem_cons_of_mem step hs))
      rw [this, loopIter_running]
    · rfl

theorem runLoop_stop_of_not_running (steps : List LoopStep) (st : WorkerState)
    (h1 : st.running = true) (h2 : (runLoop st steps).1.running = false) :
    ∃ s ∈ steps, s.stop_signal = true := by
  by_contra hc
  push_neg at hc
  have hr := runLoop_running steps st (fun s hs => by simpa using hc s hs)
  rw [h1] at hr
  rw [hr] at h2
  cases h2

/-- C8: an I/O exception inside an iteration of the active loop is caught
at source line 235: the `Error:` status is emitted and the loop pauses one
time unit; the running flag is untouched by every iteration, so the loop
only terminates when a caller-driven `stop()` clears the flag. -/
theorem c8_loop_resilient (st : WorkerState) (inp : IterInput) (steps : List LoopStep) :
    (inp.recv_fail = true →
      loopIter st inp =
        ⟨st, [.status_update st.device_type ("Error: ".toList ++ inp.err_text)], [], [1]⟩) ∧
    (inp.recv_fail = false → inp.send_fail = true →
      (decide (st.device_type = "Transmitter".toList) && pyTruthy st.message_to_send &&
        decide (inp.now - st.last_send_time ≥ send_interval)) = true →
      (loopIter st inp).state = st ∧
      Event.status_update st.device_type ("Error: ".toList ++ inp.err_text) ∈
        (loopIter st inp).events ∧
      (loopIter st inp).sleeps = [1]) ∧
    (loopIter st inp).state.running = st.running ∧
    ((∀ s ∈ steps, s.stop_signal = false) →
      (runLoop st steps).1.running = st.running) ∧
    (st.running = true → (runLoop st steps).1.running = false →
      ∃ s ∈ steps, s.stop_signal = true) := by
  refine ⟨?_, ?_, loopIter_running st inp, runLoop_running steps st,
    runLoop_stop_of_not_running steps st⟩
  · intro h
    rw [loopIter, if_pos h]
  · intro h1 h2 h3
    have ht : transmitStep st inp =
        ⟨st, [.status_update st.device_type ("Error: ".toList ++ inp.err_text)], [], [1]⟩ := by
      rw [transmitStep, if_pos h3, if_pos h2]
    rw [loopIter, if_neg (by simp [h1])]
    simp only [ht]
    simp

/-- C8 witness: a concrete iteration whose serial read raises emits exactly
the error status, sleeps one unit, and leaves the state (running flag
included) unchanged; a two-step stop-free schedule preserves the flag. -/
theorem c8_witness :
    (loopIter
        { port := "p".toList, device_type := "Receiver".toList, running := true,
          serial := some true, message_to_send := none, last_send_time := 0 }
        ⟨3, none, true, false, "Input output error".toList⟩ =
      ⟨{ port := "p".toList, device_type := "Receiver".toList, running := true,
          serial := some true, message_to_send := none, last_send_time := 0 },
       [.status_update "Receiver".toList "Error: Input output error".toList], [], [1]⟩) ∧
    (runLoop
        { port := "p".toList, device_type := "Receiver".toList, running := true,
          serial := some true, message_to_send := none, last_send_time := 0 }
        [⟨false, ⟨3, none, true, false, "Input output error".toList⟩⟩,
         ⟨false, ⟨4, none, false, false, []⟩⟩]).1.running = true := by
  have h := c8_loop_resilient
    { port := "p".toList, device_type := "Receiver".toList, running := true,
      serial := some true, message_to_send := none, last_send_time := 0 }
    ⟨3, none, true, false, "Input output error".toList⟩
    [⟨false, ⟨3, none, true, false, "Input output error".toList⟩⟩,
     ⟨false, ⟨4, none, false, false, []⟩⟩]
  exact ⟨h.1 (by decide), by rw [h.2.2.2.1 (by decide)]⟩

theorem stop_eq_self_of_not_running (st : WorkerState) (h : st.running = false) :
    stop st = st := by
  cases st
  simp only [stop]
  simp at h
  simp [h]

theorem runLoop_stopped (steps : List LoopStep) (st : WorkerState)
    (h : st.running = false) : runLoop st steps = (st, [], []) := by
  cases steps with
  | nil => rfl
  | cons step rest =>
    rw [runLoop]
    split
    · rw [show ({st with running := false} : WorkerState) = st from
        stop_eq_self_of_not_running st h]
    · rw [if_neg (by simp [h])]

theorem disconnect_idem (st : WorkerState) :
    disconnect (disconnect st).1 = ((disconnect st).1, []) := by
  by_cases h : st.serial = some true
  · simp [disconnect, h]
  · simp [disconnect, h]

/-- C6: `stop()` clears the running flag; the active loop then refuses every
further iteration (modelling `self.wait()`); the clean-up `disconnect` that
`run` performs after the loop exits closes the connection and emits the
`ConnectionStatus(false)` event whenever the handle is open, and after it
the handle is never open.  Calling `stop()` when the session is not running
changes nothing, and a repeated `disconnect` emits nothing and changes
nothing. -/
theorem c6_stop (st : WorkerState) (steps : List LoopStep) :
    (stop st).running = false ∧
    runLoop (stop st) steps = (stop st, [], []) ∧
    (st.serial = some true →
      (disconnect (stop st)).1.serial = some false ∧
      Event.connection_status st.device_type false ∈ (disconnect (stop st)).2) ∧
    (disconnect (stop st)).1.serial ≠ some true ∧
    (st.running = false → stop st = st) ∧
    disconnect (disconnect st).1 = ((disconnect st).1, []) := by
  refine ⟨rfl, runLoop_stopped steps (stop st) rfl, ?_, ?_,
    stop_eq_self_of_not_running st, disconnect_idem st⟩
  · intro h
    have hs : (stop st).serial = some true := h
    rw [disconnect, if_pos hs]
    refine ⟨rfl, ?_⟩
    simp [stop]
  · by_cases h : st.serial = some true
    · have hs : (stop st).serial = some true := h
      rw [disconnect, if_pos hs]
      simp
    · have hs : ¬(stop st).serial = some true := h
      rw [disconnect, if_neg hs]
      exact hs

/-- Concrete running Receiver session with an open handle, used by the C6
witness. -/
def c6State : WorkerState :=
  { port := "p".toList, device_type := "Receiver".toList, running := true,
    serial := some true, message_to_send := none, last_send_time := 0 }

/-- C6 witness: stopping a concrete running session with an open handle
yields a closed handle, a `ConnectionStatus(false)` event, and an inert
loop. -/
theorem c6_witness :
    (stop c6State).running = false ∧
    runLoop (stop c6State) [⟨false, ⟨1, none, false, false, []⟩⟩] =
      (stop c6State, [], []) ∧
    (disconnect (stop c6State)).1.serial = some false ∧
    Event.connection_status "Receiver".toList false ∈ (disconnect (stop c6State)).2 := by
  have h := c6_stop c6State [⟨false, ⟨1, none, false, false, []⟩⟩]
  exact ⟨h.1, h.2.1, (h.2.2.1 (by decide)).1, (h.2.2.1 (by decide)).2⟩

/-- C7: an I/O exception during the configuration sequence (mode-set,
RF-config, or the Receiver's receive-enable) makes `configure_device`
return `False` with the configuration-error status emitted; `run` then
closes the connection and returns without ever reaching the active loop. -/
theorem c7_config_abort (port dt : PyStr) (env : ConfigEnv) (steps : List LoopStep)
    (h : env.mode_fail = true ∨ env.rfcfg_fail = true ∨
      (dt = "Receiver".toList ∧ env.rxlrpkt_fail = true)) :
    (configure_device dt env).1 = false ∧
    (run port dt true env steps).entered_loop = false ∧
    (run port dt true env steps).state.serial = some false ∧
    Event.status_update dt ("Configuration error: ".toList ++ env.err_text) ∈
      (run port dt true env steps).events := by
  obtain ⟨m, r, x, e⟩ := env
  simp only at h
  have hc : (configure_device dt ⟨m, r, x, e⟩).1 = false := by
    cases m <;> cases r <;> cases x <;> simp_all [configure_device]
  have he : Event.status_update dt ("Configuration error: ".toList ++ e) ∈
      (configure_device dt ⟨m, r, x, e⟩).2.1 := by
    cases m <;> cases r <;> cases x <;> simp_all [configure_device]
  refine ⟨hc, ?_, ?_, ?_⟩
  · simp [run, hc]
  · simp [run, hc, disconnect]
  · simp [run, hc, disconnect]
    simpa using he

/-- C7 witness: a Receiver session whose receive-enable write raises never
enters the loop, ends with a closed handle, and reports the configuration
error. -/
theorem c7_witness :
    (configure_device "Receiver".toList ⟨false, false, true, "write failed".toList⟩).1 =
      false ∧
    (run "p".toList "Receiver".toList true ⟨false, false, true, "write failed".toList⟩
      []).entered_loop = false ∧
    (run "p".toList "Receiver".toList true ⟨false, false, true, "write failed".toList⟩
      []).state.serial = some false ∧
    Event.status_update "Receiver".toList "Configuration error: write failed".toList ∈
      (run "p".toList "Receiver".toList true ⟨false, false, true, "write failed".toList⟩
        []).events :=
  c7_config_abort "p".toList "Receiver".toList ⟨false, false, true, "write failed".toList⟩
    [] (Or.inr (Or.inr ⟨rfl, rfl⟩))

theorem transmitStep_not_transmitter (st : WorkerState) (inp : IterInput)
    (h : st.device_type ≠ "Transmitter".toList) :
    transmitStep st inp = ⟨st, [], [], [(1 : ℚ) / 10]⟩ := by
  rw [transmitStep, if_neg ?_]
  simp only [Bool.and_eq_true, decide_eq_true_eq, not_and]
  intro hdt
  exact absurd hdt.1 h

theorem loopIter_receiver_state (st : WorkerState) (inp : IterInput)
    (h : st.device_type = "Receiver".toList) :
    (loopIter st inp).state = st := by
  rw [loopIter]
  split
  · rfl
  · rw [transmitStep_not_transmitter st inp (by rw [h]; decide)]

/-- C5: for a Receiver, a received line containing `+TEST: RX` has the
payload between the first pair of quote characters hex-decoded to ASCII
and emitted as a message event; when the quote split or the decode fails
(odd digit count, malformed hex, non-ASCII byte, or missing quotes), the
failure status is emitted instead and no message event occurs; the
handling changes no session state, so only that line is affected.  The
concrete line `+TEST: RX "48656C6C6F"` yields the message `Hello`. -/
theorem c5_packet_decode (raw hex txt : PyStr) (st : WorkerState) (inp : IterInput) :
    ((pyStrip raw).isEmpty = false →
      containsSub "+TEST: RX".toList (pyStrip raw) = true →
      (pySplit ['"'] (pyStrip raw))[1]? = some hex →
      decodeAsciiHex hex = some txt →
      receiveEvents "Receiver".toList raw =
        [.status_update "Receiver".toList ("Received: ".toList ++ pyStrip raw),
         .message_received "Receiver".toList ("Received message: ".toList ++ txt)]) ∧
    ((pyStrip raw).isEmpty = false →
      containsSub "+TEST: RX".toList (pyStrip raw) = true →
      (pySplit ['"'] (pyStrip raw))[1]? = some hex →
      decodeAsciiHex hex = none →
      receiveEvents "Receiver".toList raw =
        [.status_update "Receiver".toList ("Received: ".toList ++ pyStrip raw),
         .status_update "Receiver".toList "Failed to decode message".toList]) ∧
    ((pyStrip raw).isEmpty = false →
      containsSub "+TEST: RX".toList (pyStrip raw) = true →
      (pySplit ['"'] (pyStrip raw))[1]? = none →
      receiveEvents "Receiver".toList raw =
        [.status_update "Receiver".toList ("Received: ".toList ++ pyStrip raw),
         .status_update "Receiver".toList "Failed to decode message".toList]) ∧
    (st.device_type = "Receiver".toList → (loopIter st inp).state = st) ∧
    receiveEvents "Receiver".toList "+TEST: RX \"48656C6C6F\"".toList =
      [.status_update "Receiver".toList "Received: +TEST: RX \"48656C6C6F\"".toList,
       .message_received "Receiver".toList "Received message: Hello".toList] := by
  refine ⟨?_, ?_, ?_, loopIter_receiver_state st inp, by decide⟩
  · intro hne hpat hsplit hdec
    rw [receiveEvents]
    simp only [hne, Bool.false_eq_true, if_false]
    rw [if_pos (by simp; exact hpat), handle_receiver_packet, hsplit]
    simp only [hdec]
  · intro hne hpat hsplit hdec
    rw [receiveEvents]
    simp only [hne, Bool.false_eq_true, if_false]
    rw [if_pos (by simp; exact hpat), handle_receiver_packet, hsplit]
    simp only [hdec]
  · intro hne hpat hsplit
    rw [receiveEvents]
    simp only [hne, Bool.false_eq_true, if_false]
    rw [if_pos (by simp; exact hpat), handle_receiver_packet, hsplit]

/-- C5 witness: a received packet whose payload has an odd number of hex
digits yields the failure status and no message event. -/
theorem c5_witness :
    receiveEvents "Receiver".toList "+TEST: RX \"414\"".toList =
      [.status_update "Receiver".toList "Received: +TEST: RX \"414\"".toList,
       .status_update "Receiver".toList "Failed to decode message".toList] :=
  (c5_packet_decode "+TEST: RX \"414\"".toList "414".toList []
      (initWorker [] []) ⟨0, none, false, false, []⟩).2.1
    (by decide) (by decide) (by decide) (by decide)

theorem transmitStep_events_writes (st : WorkerState) (inp : IterInput) (m : PyStr)
    (hm : st.message_to_send = some m) :
    (∀ d t, Event.message_received d t ∈ (transmitStep st inp).events →
      t = "Sent message: ".toList ++ m) ∧
    ∀ w ∈ (transmitStep st inp).writes, w = tx_command m := by
  rw [transmitStep]
  split
  · split
    · exact ⟨fun d t ht => by simp at ht, fun w hw => by simp at hw⟩
    · constructor
      · intro d t ht
        simp only [List.mem_singleton, Event.message_received.injEq] at ht
        rw [ht.2, hm]
        rfl
      · intro w hw
        simp only [List.mem_singleton] at hw
        rw [hw, hm]
        rfl
  · exact ⟨fun d t ht => by simp at ht, fun w hw => by simp at hw⟩

theorem c1_loopIter_aux (st : WorkerState) (inp : IterInput) (m : PyStr)
    (hdt : st.device_type = "Transmitter".toList) (hm : st.message_to_send = some m) :
    (∀ d t, Event.message_received d t ∈ (loopIter st inp).events →
      t = "Sent message: ".toList ++ m) ∧
    ∀ w ∈ (loopIter st inp).writes, w = tx_command m := by
  rw [loopIter]
  split
  · exact ⟨fun d t ht => by simp at ht, fun w hw => by simp at hw⟩
  · constructor
    · intro d t ht
      simp only [List.mem_append] at ht
      rcases ht with h1 | h2
      · exfalso
        cases hl : inp.line with
        | none => rw [hl] at h1; simp at h1
        | some raw =>
          rw [hl] at h1
          exact receiveEvents_no_message_of_ne st.device_type raw
            (by rw [hdt]; decide) d t h1
      · exact (transmitStep_events_writes st inp m hm).1 d t h2
    · exact (transmitStep_events_writes st inp m hm).2

theorem c1_runLoop_aux : ∀ (steps : List LoopStep) (st : WorkerState) (m : PyStr),
    st.device_type = "Transmitter".toList → st.message_to_send = some m →
    (∀ d t, Event.message_received d t ∈ (runLoop st steps).2.1 →
      t = "Sent message: ".toList ++ m) ∧
    ∀ w ∈ (runLoop st steps).2.2, w = tx_command m := by
  intro steps
  induction steps with
  | nil =>
    intro st m _ _
    exact ⟨fun d t ht => by simp [runLoop] at ht, fun w hw => by simp [runLoop] at hw⟩
  | cons step rest ih =>
    intro st m hdt hm
    rw [runLoop]
    split
    · exact ⟨fun d t ht => by simp at ht, fun w hw => by simp at hw⟩
    · split
      · have hiter := c1_loopIter_aux st step.input m hdt hm
        have hrec := ih (loopIter st step.input).state m
          (by rw [loopIter_device_type]; exact hdt)
          (by rw [loopIter_message]; exact hm)
        constructor
        · intro d t ht
          simp only [List.mem_append] at ht
          rcases ht with h1 | h2
          · exact hiter.1 d t h1
          · exact hrec.1 d t h2
        · intro w hw
          simp only [List.mem_append] at hw
          rcases hw with h1 | h2
          · exact hiter.2 w h1
          · exact hrec.2 w h2
      · exact ⟨fun d t ht => by simp at ht, fun w hw => by simp at hw⟩

/-- C1 (amended): after `enqueueMessage(m1)` then `enqueueMessage(m2)` in
rapid succession, the single pending slot holds `m2`; over the whole
remaining run every transmitted packet is the encoding of `m2` and every
sent-message event carries `m2`; the earlier payload `m1` is never the
subject of a sent-message event.  (The loop does not clear the pending
message, so `m2` is re-sent once per elapsed send interval rather than
exactly once; the counterexample exhibits two transmissions.) -/
theorem c1_retransmits_latest (st : WorkerState) (m1 m2 : PyStr) (steps : List LoopStep)
    (hdt : st.device_type = "Transmitter".toList) :
    ((send_message (send_message st m1).1 m2).1.message_to_send = some m2) ∧
    (∀ d t, Event.message_received d t ∈
        (runLoop (send_message (send_message st m1).1 m2).1 steps).2.1 →
      t = "Sent message: ".toList ++ m2) ∧
    (∀ w ∈ (runLoop (send_message (send_message st m1).1 m2).1 steps).2.2,
      w = tx_command m2) ∧
    (m1 ≠ m2 →
      ∀ d, Event.message_received d ("Sent message: ".toList ++ m1) ∉
        (runLoop (send_message (send_message st m1).1 m2).1 steps).2.1) := by
  have haux := c1_runLoop_aux steps (send_message (send_message st m1).1 m2).1 m2 hdt rfl
  refine ⟨rfl, haux.1, haux.2, ?_⟩
  intro hne d hmem
  exact hne (List.append_cancel_left (haux.1 d _ hmem))

/-- Concrete Transmitter state used by the C1 counterexample and witness:
two messages queued in rapid succession before any send, the second
overwriting the first. -/
def c1State : WorkerState :=
  (send_message
    (send_message
      { port := "p".toList, device_type := "Transmitter".toList, running := true,
        serial := some true, message_to_send := none, last_send_time := 0 }
      "first!".toList).1
    "second!".toList).1

/-- Concrete two-iteration schedule spanning two send intervals, used by
the C1 counterexample and witness. -/
def c1Steps : List LoopStep :=
  [⟨false, ⟨6, none, false, false, []⟩⟩, ⟨false, ⟨12, none, false, false, []⟩⟩]

/-- C1 counterexample: with both enqueues done before the first send
interval elapsed, a run of the active loop spanning two send intervals
transmits twice — the source never clears `message_to_send` after a send —
refuting "exactly one transmitted message over the whole remaining run";
both transmissions carry the second payload. -/
theorem c1_counterexample :
    (runLoop c1State c1Steps).2.2 =
      [tx_command "second!".toList, tx_command "second!".toList] ∧
    tx_command "second!".toList ≠ tx_command "first!".toList := by
  exact ⟨by decide, by decide⟩

/-- C1 witness: the amended theorem applied at the concrete state: every
write of the concrete run is the encoding of the second payload, and no
sent-message event for the first payload occurs. -/
theorem c1_witness :
    (∀ w ∈ (runLoop c1State c1Steps).2.2, w = tx_command "second!".toList) ∧
    ∀ d, Event.message_received d ("Sent message: ".toList ++ "first!".toList) ∉
      (runLoop c1State c1Steps).2.1 := by
  have h := c1_retransmits_latest
    { port := "p".toList, device_type := "Transmitter".toList, running := true,
      serial := some true, message_to_send := none, last_send_time := 0 }
    "first!".toList "second!".toList c1Steps (by decide)
  exact ⟨h.2.2.1, h.2.2.2 (by decide)⟩

set_option maxRecDepth 4000 in
theorem hex02_eq : ∀ n < 256, hex02 n = [hexDigit (n / 16), hexDigit (n % 16)] := by
  decide

theorem hexDigit_props : ∀ n < 16, isPyWs (hexDigit n) = false ∧
    hexVal (hexDigit n) = some n := by
  decide

theorem fromhexL_hex02 (c : Char) (h : c.toNat < 256) (t : PyStr) :
    fromhexL (hex02 c.toNat ++ t) = (fromhexL t).map (fun bs => c.toNat :: bs) := by
  rw [hex02_eq c.toNat h]
  have h1 := hexDigit_props (c.toNat / 16) (by omega)
  have h2 := hexDigit_props (c.toNat % 16) (by omega)
  have hn : c.toNat / 16 * 16 + c.toNat % 16 = c.toNat := by omega
  simp only [List.cons_append, List.nil_append, fromhexL, h1.1, h1.2, h2.2,
    Bool.false_eq_true, if_false, hn]
  rfl

theorem fromhexL_encFlat : ∀ (msg : PyStr), (∀ c ∈ msg, c.toNat < 128) →
    fromhexL (msg.flatMap (fun c => hex02 c.toNat)) = some (msg.map Char.toNat) := by
  intro msg
  induction msg with
  | nil => intro _; rfl
  | cons c cs ih =>
    intro h
    have hc : c.toNat < 256 := by
      have := h c (List.mem_cons_self c cs)
      omega
    rw [List.flatMap_cons, fromhexL_hex02 c hc,
      ih (fun x hx => h x (List.mem_cons_of_mem c hx))]
    rfl

theorem map_ofNat_toNat : ∀ (msg : PyStr), (msg.map Char.toNat).map Char.ofNat = msg := by
  intro msg
  induction msg with
  | nil => rfl
  | cons c cs ih => simp only [List.map_cons, Char.ofNat_toNat, ih]

/-- C2 (amended): for an ASCII payload containing at least one character
that is not a hexadecimal digit, the transmit encoder emits the two-digit
uppercase hex of each character and hex-plus-ASCII decoding recovers the
original text; on a payload made only of hexadecimal-digit characters the
encoder is the identity, so such payloads (the documented protocol
ambiguity) are exactly the ones the round trip does not recover. -/
theorem c2_round_trip (msg : PyStr) :
    ((∀ c ∈ msg, c.toNat < 128) → isAllHexPy msg = false →
      decodeAsciiHex (encodeMessage msg) = some msg) ∧
    (isAllHexPy msg = true → encodeMessage msg = msg) := by
  constructor
  · intro hascii hhex
    rw [encodeMessage, if_neg (by simp [hhex])]
    rw [decodeAsciiHex, fromhexL_encFlat msg hascii]
    have hall : ((msg.map Char.toNat).all fun b => b < 128) = true := by
      rw [List.all_eq_true]
      intro b hb
      obtain ⟨cc, hcc, rfl⟩ := List.mem_map.mp hb
      exact decide_eq_true (hascii cc hcc)
    rw [Option.some_bind, if_pos hall, map_ofNat_toNat]
  · intro h
    rw [encodeMessage, if_pos h]

/-- C2 counterexample: the all-hex ASCII payload `00` is sent as-is by the
encoder, and decoding it yields the NUL character, not the original text —
so the unrestricted round-trip claim fails. -/
theorem c2_counterexample :
    decodeAsciiHex (encodeMessage "00".toList) ≠ some ("00".toList) ∧
    decodeAsciiHex (encodeMessage "00".toList) = some [Char.ofNat 0] := by
  exact ⟨by decide, by decide⟩

/-- C2 witness: the amended round trip at the non-hex ASCII payload `Hi!`,
and encoder identity at the all-hex payload `DEAD`. -/
theorem c2_witness :
    decodeAsciiHex (encodeMessage "Hi!".toList) = some ("Hi!".toList) ∧
    encodeMessage "DEAD".toList = "DEAD".toList :=
  ⟨(c2_round_trip "Hi!".toList).1 (by decide) (by decide),
   (c2_round_trip "DEAD".toList).2 (by decide)⟩

theorem containsSub_cons (x : PyStr) (c : Char) (rest : PyStr) :
    containsSub x (c :: rest) = (x.isPrefixOf (c :: rest) || containsSub x rest) := by
  rw [containsSub, findDrop]
  split
  · simp_all
  · simp_all [containsSub]

theorem isPrefixOf_append_left (a b s : PyStr) (h : (a ++ b).isPrefixOf s = true) :
    a.isPrefixOf s = true := by
  rw [List.isPrefixOf_iff_prefix] at h ⊢
  exact (List.prefix_append a b).trans h

theorem containsSub_append_left (a b : PyStr) : ∀ (s : PyStr),
    containsSub (a ++ b) s = true → containsSub a s = true := by
  intro s
  induction s with
  | nil =>
    intro h
    rw [containsSub, findDrop] at h ⊢
    simp_all
  | cons c rest ih =>
    intro h
    rw [containsSub_cons] at h ⊢
    rcases Bool.or_eq_true_iff.mp h with h1 | h2
    · exact Bool.or_eq_true_iff.mpr (Or.inl (isPrefixOf_append_left a b _ h1))
    · exact Bool.or_eq_true_iff.mpr (Or.inr (ih h2))

/-- C3 (amended): per-line temperature extraction accepts format (a), the
marker followed by a comma and a parsable numeric literal (the stripped
second field of the `TEMP,` split), and format (b), a whitespace-tokenized
line in which the token equal to the marker is immediately followed by a
parsable numeric token — but format (b) additionally requires the line to
contain a colon character; a malformed numeric literal leaves the value
unchanged and raises nothing past the line boundary.  Concretely,
`+TEST: TEMP,23.50` and `+TEST: TEMP 23.50` both yield 23.50, and a
malformed literal yields no value. -/
theorem c3_extraction_formats (line part tok : PyStr) (v : Option ℚ) (q : ℚ) :
    (containsSub "TEMP,".toList line = true →
      (pySplit "TEMP,".toList line)[1]? = some part →
      pyFloat (pyStrip part) = some q →
      extractTemp v line = some q) ∧
    (containsSub "TEMP".toList line = true →
      containsSub "TEMP,".toList line = false →
      containsSub ":".toList line = true →
      findTempToken (pySplitWs line) = some tok →
      pyFloat tok = some q →
      extractTemp v line = some q) ∧
    (tryExtract line = none → extractTemp v line = v) ∧
    extractTemp none "+TEST: TEMP,23.50".toList = some (47 / 2 : ℚ) ∧
    extractTemp none "+TEST: TEMP 23.50".toList = some (47 / 2 : ℚ) ∧
    extractTemp none "+TEST: TEMP,2x.5".toList = none := by
  have hval : partsVal ⟨1, 23, 50, 2, 0⟩ = (47 / 2 : ℚ) := by
    norm_num [partsVal]
  refine ⟨?_, ?_, ?_, ?_, ?_, by decide⟩
  · intro h1 h2 h3
    have hTEMP : containsSub "TEMP".toList line = true :=
      containsSub_append_left "TEMP".toList [','] line h1
    have ht : tryExtract line = some q := by
      rw [tryExtract, if_pos hTEMP, if_pos h1, h2]
      exact h3
    rw [extractTemp, ht]
  · intro hTEMP h1 hcolon h2 h3
    have ht : tryExtract line = some q := by
      rw [tryExtract, if_pos hTEMP, if_neg (by simp only [Bool.not_eq_true]; exact h1),
        if_pos (by rw [hcolon, hTEMP]; rfl), h2]
      exact h3
    rw [extractTemp, ht]
  · intro hnone
    rw [extractTemp, hnone]
  · have h : extractTemp none "+TEST: TEMP,23.50".toList =
        some (partsVal ⟨1, 23, 50, 2, 0⟩) := rfl
    rw [h, hval]
  · have h : extractTemp none "+TEST: TEMP 23.50".toList =
        some (partsVal ⟨1, 23, 50, 2, 0⟩) := rfl
    rw [h, hval]

/-- C3 counterexample: the line `TEMP 23.50` contains the marker and, once
tokenized, the marker token is immediately followed by the parsable numeric
token `23.50` — yet extraction yields no value, because the source's
format (b) branch additionally requires a `:` character in the line
(`elif ":" in line and "TEMP" in line`). -/
theorem c3_counterexample :
    extractTemp none "TEMP 23.50".toList = none ∧
    findTempToken (pySplitWs "TEMP 23.50".toList) = some "23.50".toList ∧
    pyFloat "23.50".toList = some (47 / 2 : ℚ) := by
  refine ⟨by decide, by decide, ?_⟩
  have h : pyFloat "23.50".toList = some (partsVal ⟨1, 23, 50, 2, 0⟩) := rfl
  rw [h]
  norm_num [partsVal]

/-- C3 witness: the amended format (a) clause applied at the concrete line
`>> TEMP,17.25`. -/
theorem c3_witness :
    extractTemp none ">> TEMP,17.25".toList = some (partsVal ⟨1, 17, 25, 2, 0⟩) :=
  (c3_extraction_formats ">> TEMP,17.25".toList "17.25".toList [] none
      (partsVal ⟨1, 17, 25, 2, 0⟩)).1
    (by decide) (by decide) rfl

theorem rtGo_stop (dt : PyStr) (lines : List PyStr) (v : Option ℚ) :
    rtGo dt lines true v = (true, v, []) := by
  cases lines with
  | nil => rfl
  | cons raw rest => rw [rtGo, if_pos rfl]

theorem rtGo_value (dt : PyStr) : ∀ (lines : List PyStr) (v : Option ℚ),
    (rtGo dt lines false v).2.1 =
      (rtConsumedLines lines).foldl
        (fun acc l => match tryExtract l with | some t => some t | none => acc) v := by
  intro lines
  induction lines with
  | nil => intro v; rfl
  | cons raw rest ih =>
    intro v
    rw [rtGo, if_neg (by simp), rtConsumedLines]
    simp only
    by_cases he : (pyStrip raw).isEmpty = true
    · rw [if_pos he, if_pos he]
      exact ih v
    · rw [if_neg he, if_neg he]
      by_cases hc : completingLine (pyStrip raw) = true
      · rw [hc, rtGo_stop]
        simp only [List.foldl_cons, List.foldl_nil]
        rfl
      · rw [Bool.not_eq_true] at hc
        rw [hc, if_neg (by simp), List.foldl_cons]
        exact ih (extractTemp v (pyStrip raw))

theorem rtGo_complete (dt : PyStr) : ∀ (lines : List PyStr) (v : Option ℚ),
    (rtGo dt lines false v).1 = responseCompleted lines := by
  intro lines
  induction lines with
  | nil => intro v; rfl
  | cons raw rest ih =>
    intro v
    rw [rtGo, if_neg (by simp), responseCompleted]
    simp only
    by_cases he : (pyStrip raw).isEmpty = true
    · rw [if_pos he, if_pos he]
      exact ih v
    · rw [if_neg he, if_neg he]
      by_cases hc : completingLine (pyStrip raw) = true
      · rw [hc, rtGo_stop]
        rfl
      · rw [Bool.not_eq_true] at hc
        rw [hc, if_neg (by simp)]
        exact ih (extractTemp v (pyStrip raw))

theorem rtGo_events_texts (dt : PyStr) : ∀ (lines : List PyStr) (c : Bool) (v : Option ℚ),
    ∀ e ∈ (rtGo dt lines c v).2.2,
      e ≠ .status_update dt "Temperature data not found in response".toList ∧
      e ≠ .status_update dt "Timeout waiting for complete response".toList := by
  intro lines
  induction lines with
  | nil => intro c v e he; simp [rtGo] at he
  | cons raw rest ih =>
    intro c v e he
    rw [rtGo] at he
    by_cases hcv : c = true
    · rw [if_pos hcv] at he
      simp at he
    · rw [if_neg hcv] at he
      simp only at he
      by_cases hemp : (pyStrip raw).isEmpty = true
      · rw [if_pos hemp] at he
        exact ih _ _ e he
      · rw [if_neg hemp] at he
        simp only [List.mem_cons, List.mem_append] at he
        rcases he with h1 | h2 | h3
        · subst h1
          constructor <;> simp
        · rw [tempLineEvents] at h2
          by_cases ht : containsSub "TEMP".toList (pyStrip raw) = true
          · rw [if_pos ht] at h2
            simp only [List.mem_cons] at h2
            rcases h2 with h4 | h5
            · subst h4
              constructor <;> simp
            · by_cases hr : extractRaises (pyStrip raw) = true
              · rw [if_pos hr] at h5
                simp only [List.mem_singleton] at h5
                subst h5
                constructor <;> simp
              · rw [if_neg hr] at h5
                simp only [List.mem_singleton] at h5
                subst h5
                constructor <;> simp
          · rw [if_neg ht] at h2
            simp at h2
        · exact ih _ _ e h3

/-- C4: over any sequence of arriving lines (a completing line stops the
read; exhausting the list stands for the 5-unit timeout),
`read_temperature` on a connected session returns the last successfully
parsed numeric value over the consumed lines — `None` when no line
parsed; a per-line parse failure leaves the value from earlier lines
unchanged and aborts nothing; and an absent result is reported with the
data-not-found diagnostic exactly when a completing line arrived and with
the timeout diagnostic exactly when none did, never both. -/
theorem c4_read_temperature (st : WorkerState) (lines : List PyStr)
    (hconn : st.serial = some true) :
    (read_temperature st lines).1 = lastParsedValue lines ∧
    (∀ (w : Option ℚ) (l : PyStr), tryExtract l = none → extractTemp w l = w) ∧
    ((read_temperature st lines).1 = none → responseCompleted lines = true →
      Event.status_update st.device_type "Temperature data not found in response".toList ∈
        (read_temperature st lines).2.1 ∧
      Event.status_update st.device_type "Timeout waiting for complete response".toList ∉
        (read_temperature st lines).2.1) ∧
    ((read_temperature st lines).1 = none → responseCompleted lines = false →
      Event.status_update st.device_type "Timeout waiting for complete response".toList ∈
        (read_temperature st lines).2.1 ∧
      Event.status_update st.device_type "Temperature data not found in response".toList ∉
        (read_temperature st lines).2.1) := by
  have hval := rtGo_value st.device_type lines none
  have hcom := rtGo_complete st.device_type lines none
  have hevs := rtGo_events_texts st.device_type lines false none
  rw [read_temperature, if_pos hconn]
  simp only
  refine ⟨hval, fun w l hn => by rw [extractTemp, hn], ?_, ?_⟩
  · intro hnone hcomp
    have hflag : (rtGo st.device_type lines false none).1 = true := by
      rw [hcom]; exact hcomp
    constructor
    · rw [hnone, hflag]
      simp
    · rw [hnone, hflag]
      simp only [List.mem_cons, List.mem_append, List.mem_singleton, not_or, if_pos]
      refine ⟨by simp, ?_, by simp, by simp⟩
      intro hmem
      exact (hevs _ hmem).2 rfl
  · intro hnone hcomp
    have hflag : (rtGo st.device_type lines false none).1 = false := by
      rw [hcom]; exact hcomp
    constructor
    · rw [hnone, hflag]
      simp
    · rw [hnone, hflag]
      simp only [List.mem_cons, List.mem_append, List.mem_singleton, not_or, if_neg]
      refine ⟨by simp, ?_, by simp, by simp⟩
      intro hmem
      exact (hevs _ hmem).1 rfl

/-- Concrete connected Transmitter state used by the C4 witness. -/
def c4State : WorkerState :=
  { port := "p".toList, device_type := "Transmitter".toList, running := true,
    serial := some true, message_to_send := none, last_send_time := 0 }

/-- C4 witness: a malformed numeric literal followed by the `OK` terminator
yields an absent value with the data-not-found diagnostic and without the
timeout diagnostic. -/
theorem c4_witness :
    (read_temperature c4State ["+TEST: TEMP,abc".toList, "OK".toList]).1 = none ∧
    Event.status_update "Transmitter".toList
        "Temperature data not found in response".toList ∈
      (read_temperature c4State ["+TEST: TEMP,abc".toList, "OK".toList]).2.1 ∧
    Event.status_update "Transmitter".toList
        "Timeout waiting for complete response".toList ∉
      (read_temperature c4State ["+TEST: TEMP,abc".toList, "OK".toList]).2.1 := by
  have h := c4_read_temperature c4State ["+TEST: TEMP,abc".toList, "OK".toList] (by decide)
  have hv : (read_temperature c4State ["+TEST: TEMP,abc".toList, "OK".toList]).1 = none := by
    rw [h.1]
    decide
  exact ⟨hv, (h.2.2.1 hv (by decide)).1, (h.2.2.1 hv (by decide)).2⟩
